import Mathlib

/-!
Shallow embedding of the Bubo chat-bot command engine
(`bubo/bot_commands.py`, `bubo/communities.py`, `bubo/users.py`)
together with theorems settling the specification claims.

Python handlers are modelled as pure functions from the command input
(and the relevant persisted or external state) to a structured outcome
describing exactly which response path the code takes and what the new
state is.  External collaborators that live outside the embedded files
(the matrix client, the keycloak backend, the sqlite storage layer) are
parameters or explicit state values; where their behaviour decides a
claim and the spec describes them, the definitions carry a
`Modelled from the spec:` note.
-/

namespace Bubo

/-! ## Access tiers (`Command._ensure_admin`, `Command._ensure_coordinator`) -/

/-- Configured membership sets for the two access tiers. -/
structure AccessConfig where
  admins : List String
  coordinators : List String
deriving DecidableEq, Repr

/-- Modelled from the spec: `bubo.utils.get_users_for_access` is not part of
the embedded sources.  Per the spec, tiers are strictly ordered: the
membership set fetched for `"coordinators"` contains the coordinator members
together with the admin members (admin implies everything coordinator
permits), while `"admins"` is the admin members only. -/
def get_users_for_access (cfg : AccessConfig) (group : String) : List String :=
  if group = "admins" then cfg.admins
  else if group = "coordinators" then cfg.coordinators ++ cfg.admins
  else []

/-- `Command._ensure_admin`: the sender must be in the `"admins"` set. -/
def ensure_admin (cfg : AccessConfig) (sender : String) : Bool :=
  decide (sender ∈ get_users_for_access cfg "admins")

/-- `Command._ensure_coordinator`: the sender must be in the `"coordinators"`
set. -/
def ensure_coordinator (cfg : AccessConfig) (sender : String) : Bool :=
  decide (sender ∈ get_users_for_access cfg "coordinators")

/-! ## Recreate state machine (`Command._recreate_room`) -/

/-- One persisted recreate-request row, keyed by room
(`store.get_recreate_room` returns `requester`, `timestamp`, `applied`). -/
structure RecreateRequest where
  requester : String
  timestamp : Int
  applied : Bool
deriving DecidableEq, Repr

/-- Which response path `Command._recreate_room` takes. -/
inductive RecreateOutcome where
  /-- `_ensure_admin` failed: permission denied. -/
  | denied
  /-- "Can only recreate a room once, this room has already been recreated." -/
  | alreadyRecreated
  /-- a fresh request was stored and the confirm prompt was sent. -/
  | promptConfirm
  /-- "Unknown subcommand." -/
  | unknownSubcommand
  /-- "Cannot confirm room recreate before requesting room recreate." -/
  | noRequest
  /-- "Room recreate confirm must be given by the room recreate requester." -/
  | wrongRequester
  /-- "Room recreate confirmation must be given within 60 seconds." -/
  | expired
  /-- all gates passed and `recreate_room` succeeded. -/
  | recreated
  /-- all gates passed but `recreate_room` returned nothing. -/
  | recreateFailed
deriving DecidableEq, Repr

/-- `Command._recreate_room`, for one room.  The room's stored request is
`st` (`none` when no row exists); `now` is `int(time.time())`;
`recreateSucceeds` abstracts whether the external `recreate_room`
collaborator returns a new room id.

Modelled from the spec where the storage layer is not in the embedded
sources: `store_recreate_room` persists the requesting sender with the
current timestamp and `applied = false`, `delete_recreate_room` removes the
row (together: replace the row), and on a successful confirm the applied
flag is set true. -/
def recreate_room_cmd (cfg : AccessConfig) (sender : String) (now : Int)
    (subcommand : Option String) (recreateSucceeds : Bool)
    (st : Option RecreateRequest) : RecreateOutcome × Option RecreateRequest :=
  if ¬ ensure_admin cfg sender then (.denied, st)
  else match subcommand with
  | none =>
    match st with
    | some req =>
      if req.applied then (.alreadyRecreated, st)
      else (.promptConfirm, some ⟨sender, now, false⟩)
    | none => (.promptConfirm, some ⟨sender, now, false⟩)
  | some sub =>
    if sub ≠ "confirm" then (.unknownSubcommand, st)
    else match st with
    | none => (.noRequest, st)
    | some req =>
      if req.requester ≠ sender then (.wrongRequester, st)
      else if now - req.timestamp > 60 then (.expired, st)
      else if recreateSucceeds then (.recreated, some { req with applied := true })
      else (.recreateFailed, st)

/-! ## Verb routing (`Command.process`) -/

/-- The handler a command text is dispatched to. -/
inductive Route where
  | breakout
  | communities
  | help
  | invite
  | power
  | rooms
  | spaces
  | users
  | unknown
deriving DecidableEq, Repr

/-- Python `str.startswith`: the second string is a leading piece of the
first.  Defined over the underlying character lists. -/
def strStartsWith (s p : String) : Bool :=
  p.data.isPrefixOf s.data

/-- `Command.process`: dispatch by `str.startswith` checks on the raw
command text, in the source order. -/
def process (command : String) : Route :=
  if strStartsWith command "breakout" then .breakout
  else if strStartsWith command "communities" then .communities
  else if strStartsWith command "help" then .help
  else if strStartsWith command "invite" then .invite
  else if strStartsWith command "power" then .power
  else if strStartsWith command "rooms" then .rooms
  else if strStartsWith command "spaces" then .spaces
  else if strStartsWith command "users" then .users
  else .unknown

/-- The known verbs of the command grammar. -/
def knownVerbs : List String :=
  ["help", "breakout", "rooms", "spaces", "communities", "power", "invite",
    "users"]

/-- The spec's notion of the routing key, stated from the spec's words, not
from the source: the first whitespace-separated token of the command text.
Used only to compare the spec's claimed routing rule with `process`. -/
def specFirstToken (s : String) : String :=
  String.mk ((s.data.dropWhile (fun c => c.isWhitespace)).takeWhile
    (fun c => ¬ c.isWhitespace))

/-! ## `Command._power` -/

/-- Which response path `Command._power` takes.  Alias resolution by the
matrix client is external and elided: the room argument is used as given. -/
inductive PowerOutcome where
  /-- coordinator gate failed. -/
  | denied
  /-- `HELP_POWER` was sent. -/
  | help
  /-- `IndexError` on `self.args[1]`: "Cannot understand arguments." -/
  | cannotUnderstand
  /-- "Level must be 'moderator' or 'admin'." -/
  | badLevel
  /-- level was `admin` but `_ensure_admin` failed. -/
  | adminOnly
  /-- `set_user_power` is invoked with this power value. -/
  | setPower (user room : String) (power : Nat)
deriving DecidableEq, Repr

/-- `Command._power`. -/
def powerCmd (cfg : AccessConfig) (sender : String) (args : List String) :
    PowerOutcome :=
  if ¬ ensure_coordinator cfg sender then .denied
  else if args.isEmpty ∨ args.headD "" = "help" then .help
  else match args with
  | [] => .cannotUnderstand
  | [_] => .cannotUnderstand
  | user :: room :: rest =>
    let level := rest.headD "moderator"
    if level ∉ (["moderator", "admin"] : List String) then .badLevel
    else if level = "admin" ∧ ¬ ensure_admin cfg sender then .adminOnly
    else .setPower user room (if level = "admin" then 100 else 50)

/-! ## `Command._rooms` (also `spaces` via `space=True`) -/

/-- Which response path `Command._rooms` takes. -/
inductive RoomsOutcome where
  /-- coordinator gate failed. -/
  | denied
  /-- create arguments rejected, help text sent, no operation. -/
  | malformedCreate
  /-- `ensure_room_exists` is invoked with these fields. -/
  | ensureRoom (name alias_ parent : String) (pub encrypted space : Bool)
  /-- `HELP_ROOMS` or `HELP_SPACES` was sent. -/
  | helpRooms
  /-- `_list_rooms` output was sent. -/
  | listRooms
  /-- `_list_no_admin_rooms` output was sent. -/
  | listNoAdmin
  /-- delegated to `_recreate_room` with this subcommand. -/
  | recreate (subcommand : Option String)
  /-- delegated to `_unlink_room`. -/
  | unlink (leave : Bool)
  /-- "Unknown subcommand!" -/
  | unknownSubcommand
deriving DecidableEq, Repr

/-- `Command._rooms`.  The create branch re-parses `args[1:]` with a
quoted-field reader; for arguments without quote characters that parse
returns the tokens unchanged, which is how it is modelled here (`params` is
`args.tail`).  The condition mirrors the source exactly, including its
duplicated check of `params[3]` (the source never checks `params[4]`). -/
def roomsCmd (cfg : AccessConfig) (sender : String) (space : Bool)
    (args : List String) : RoomsOutcome :=
  if ¬ ensure_coordinator cfg sender then .denied
  else match args with
  | [] => .listRooms
  | sub :: rest =>
    if sub = "create" then
      let params := rest
      if params.length ≠ 5 ∨ params.getD 3 "" ∉ (["yes", "no"] : List String)
          ∨ params.getD 3 "" ∉ (["yes", "no"] : List String)
          ∨ params.getD 0 "" = "help" then
        .malformedCreate
      else
        .ensureRoom (params.getD 0 "") (params.getD 1 "") (params.getD 2 "")
          (params.getD 3 "" = "yes") (params.getD 4 "" = "yes") space
    else if sub = "help" then .helpRooms
    else if sub = "list" then .listRooms
    else if sub = "list-no-admin" then .listNoAdmin
    else if sub = "recreate" then .recreate rest.head?
    else if sub = "unlink" then .unlink false
    else if sub = "unlink-and-leave" then .unlink true
    else .unknownSubcommand

/-! ## `Command._communities` -/

/-- Which response path `Command._communities` takes. -/
inductive CommunitiesOutcome where
  /-- coordinator gate failed. -/
  | denied
  /-- create arguments rejected, usage text sent, no operation. -/
  | malformedCreate
  /-- `ensure_community_exists` is invoked with these fields. -/
  | ensureCommunity (name alias_ title : String)
  /-- "Unknown subcommand!" -/
  | unknownSubcommand
  /-- the list of stored communities was sent. -/
  | listCommunities
deriving DecidableEq, Repr

/-- `Command._communities`.  As in `roomsCmd`, the quoted-field re-parse of
`args[1:]` is modelled as the identity on the tokens. -/
def communitiesCmd (cfg : AccessConfig) (sender : String)
    (args : List String) : CommunitiesOutcome :=
  if ¬ ensure_coordinator cfg sender then .denied
  else match args with
  | [] => .listCommunities
  | sub :: rest =>
    if sub = "create" then
      let params := rest
      if params.length ≠ 3 ∨ params.getD 0 "" = "help" then .malformedCreate
      else .ensureCommunity (params.getD 0 "") (params.getD 1 "")
        (params.getD 2 "")
    else .unknownSubcommand

/-! ## `Command._invite` -/

/-- Which response path `Command._invite` takes (room-id resolution and the
per-user invite loop are external effects; reaching them is `proceed`). -/
inductive InviteOutcome where
  /-- coordinator gate failed. -/
  | denied
  /-- `HELP_INVITE` was sent. -/
  | help
  /-- the invite flow runs with this room argument and these user ids. -/
  | proceed (roomArg : String) (userIds : List String)
deriving DecidableEq, Repr

/-- `Command._invite`. -/
def inviteCmd (cfg : AccessConfig) (sender : String) (args : List String) :
    InviteOutcome :=
  if ¬ ensure_coordinator cfg sender then .denied
  else if args.isEmpty ∨ args.headD "" = "help" then .help
  else .proceed (args.headD "") args.tail

/-! ## `Command._users` -/

/-- Which response path `Command._users` takes. -/
inductive UsersOutcome where
  /-- keycloak integration disabled: `HELP_USERS_KEYCLOAK_DISABLED`. -/
  | keycloakDisabled
  /-- admin gate failed. -/
  | deniedAdmin
  /-- coordinator gate failed. -/
  | deniedCoordinator
  /-- the username list was sent. -/
  | listUsers
  /-- `HELP_USERS` was sent. -/
  | helpUsers
  /-- `HELP_USERS_CREATE` was sent. -/
  | helpUsersCreate
  /-- the per-email create loop runs over these arguments. -/
  | createUsers (emails : List String)
  /-- `HELP_USERS_KEYCLOAK_SIGNUP_DISABLED` was sent. -/
  | signupDisabled
  /-- `HELP_USERS_INVITE` was sent. -/
  | helpUsersInvite
  /-- the per-email invite loop runs over these arguments. -/
  | inviteUsers (emails : List String)
  /-- `HELP_USERS_SIGNUPLINK` was sent. -/
  | helpSignuplink
  /-- `create_signup_link` is invoked with these values. -/
  | signuplink (maxSignups daysValid : Nat)
deriving DecidableEq, Repr

/-- `Command._users`.  `keycloakEnabled` and `signupEnabled` are the two
config switches; an unknown subcommand leaves `text = None` so the fallback
sends `HELP_USERS`. -/
def usersCmd (cfg : AccessConfig) (keycloakEnabled signupEnabled : Bool)
    (sender : String) (args : List String) : UsersOutcome :=
  if ¬ keycloakEnabled then .keycloakDisabled
  else match args with
  | [] => if ¬ ensure_admin cfg sender then .deniedAdmin else .listUsers
  | sub :: rest =>
    if sub = "list" then
      if ¬ ensure_admin cfg sender then .deniedAdmin else .listUsers
    else if sub = "help" then .helpUsers
    else if sub = "create" then
      if ¬ ensure_admin cfg sender then .deniedAdmin
      else if rest.isEmpty ∨ rest.headD "" = "help" then .helpUsersCreate
      else .createUsers rest
    else if sub = "invite" then
      if ¬ ensure_coordinator cfg sender then .deniedCoordinator
      else if ¬ signupEnabled then .signupDisabled
      else if rest.isEmpty ∨ rest.headD "" = "help" then .helpUsersInvite
      else .inviteUsers rest
    else if sub = "signuplink" then
      if ¬ ensure_coordinator cfg sender then .deniedCoordinator
      else if ¬ signupEnabled then .signupDisabled
      else if rest.length < 2 ∨ rest.headD "" = "help" then .helpSignuplink
      else
        match (rest.headD "").toNat?, (rest.getD 1 "").toNat? with
        | some m, some d =>
          if m < 1 ∨ d < 1 then .helpSignuplink else .signuplink m d
        | _, _ => .helpSignuplink
    else .helpUsers

/-! ## `Command._breakout` -/

/-- The announcement text sent after creating a breakout room named
`name`. -/
def breakout_announce_text (name : String) : String :=
  "Breakout room '" ++ name ++ "' created!\n" ++
    "\n\nReact to this message with any emoji reaction to get invited to the room."

/-- The degraded-mode warning sent when no event id came back for the
announcement, so the message-to-room mapping could not be stored. -/
def breakout_store_error_text : String :=
  "*Error: failed to store breakout room data. The room was created, " ++
    "but invites via reactions will not work.*"

/-- Which response path `Command._breakout` takes. -/
inductive BreakoutOutcome where
  /-- the usage text was sent. -/
  | help
  /-- the room was created; these texts were sent, in order, and `stored`
  says whether `store_breakout_room` recorded the event-to-room mapping. -/
  | created (messages : List String) (stored : Bool)
deriving DecidableEq, Repr

/-- `Command._breakout`.  `sendEventId` is the event id returned by
`send_text_to_room` for the announcement (`none` when sending returned
nothing, in which case there is no id to key the mapping by and it is not
stored). -/
def breakoutCmd (args : List String) (sendEventId : Option String) :
    BreakoutOutcome :=
  if args.isEmpty ∨ args.headD "" = "help" then .help
  else
    let name := String.intercalate " " args
    match sendEventId with
    | some _ => .created [breakout_announce_text name] true
    | none =>
      .created [breakout_announce_text name, breakout_store_error_text] false

/-! ## `communities.ensure_community_exists` -/

/-- The tri-state reconciliation outcome: the source returns the strings
`"exists"`, `"created"` or `"error"` with an optional detail. -/
inductive EnsureOutcome where
  | alreadyExists
  | created
  | error (detail : String)
deriving DecidableEq, Repr

/-- The external group directory reached over HTTP: the set of group
aliases whose profile query returns 200, and the status code the
`create_group` endpoint would answer with for a missing alias. -/
structure GroupBackend where
  groups : List String
  createStatus : Nat
deriving DecidableEq, Repr

/-- `communities.ensure_community_exists`: query the alias; 200 means
`exists` with no mutation; otherwise create, and any status above 201 is an
error (no resource recorded), else `created` with the alias now present. -/
def ensure_community_exists (alias_ : String) (b : GroupBackend) :
    EnsureOutcome × GroupBackend :=
  if alias_ ∈ b.groups then (.alreadyExists, b)
  else if b.createStatus > 201 then
    (.error (toString b.createStatus), b)
  else (.created, { b with groups := alias_ :: b.groups })

/-! ## Username derivation (`Command._users`, create branch) -/

/-- The character class kept by `re.sub(r"[^a-z0-9._\x2d]", "", ...)`. -/
def usernameCharAllowed (c : Char) : Bool :=
  ('a' ≤ c ∧ c ≤ 'z') ∨ ('0' ≤ c ∧ c ≤ '9') ∨ c = '.' ∨ c = '_' ∨ c = '-'

/-- The derived username candidate: the part of the email before `@`,
lowercased, with disallowed characters removed. -/
def username_candidate (email : String) : String :=
  let localPart := (email.data.takeWhile (fun c => c ≠ '@'))
  String.mk ((localPart.map Char.toLower).filter usernameCharAllowed)

/-- The candidate tried at loop counter `c`: the bare base at counter 0,
then `base ++ toString c`. -/
def candidateAt (base : String) (c : Nat) : String :=
  if c = 0 then base else base ++ toString c

/-- The `while not username` loop of the create branch: try the candidate
for the current counter; if an account with that username exists, increment
the counter and retry.  `taken` abstracts `get_user_by_attr` on the
`username` attribute (a lookup failure is treated as taken, exactly as the
source's broad `except` does); `fuel` bounds the unrolling, which the
source does not bound. -/
def pick_username (taken : String → Bool) (base : String) :
    Nat → Nat → Option String
  | 0, _ => none
  | fuel + 1, c =>
    if taken (candidateAt base c) then pick_username taken base fuel (c + 1)
    else some (candidateAt base c)

/-! ## Claim theorems -/

/-- C1: for a room with a Pending recreate request created at time `T` by
sender `S`, a "recreate confirm" is gated by two checks in order: a confirm
from any sender other than `S` is rejected (at any elapsed time), and a
confirm from `S` is rejected exactly when more than 60 seconds elapsed — `S`
at `T+59` proceeds to apply, `S` at `T+61` is rejected.  Either rejection
leaves the stored request unchanged, still pending with `applied = false`. -/
theorem C1_recreate_confirm_gate (cfg : AccessConfig) (S : String) (T : Int)
    (req : RecreateRequest) (hreq : req = ⟨S, T, false⟩) :
    (∀ sender now ok, ensure_admin cfg sender = true → sender ≠ S →
      recreate_room_cmd cfg sender now (some "confirm") ok (some req)
        = (.wrongRequester, some req)) ∧
    (∀ now ok, ensure_admin cfg S = true → now - T > 60 →
      recreate_room_cmd cfg S now (some "confirm") ok (some req)
        = (.expired, some req)) ∧
    (ensure_admin cfg S = true →
      (∀ ok, recreate_room_cmd cfg S (T + 59) (some "confirm") ok (some req)
          = (if ok then (.recreated, some ⟨S, T, true⟩)
            else (.recreateFailed, some req))) ∧
      recreate_room_cmd cfg S (T + 61) (some "confirm") true (some req)
        = (.expired, some req)) := by
  subst hreq
  refine ⟨?_, ?_, ?_⟩
  · intro sender now ok hadm hne
    simp [recreate_room_cmd, hadm, Ne.symm hne]
  · intro now ok hadm hlate
    simp [recreate_room_cmd, hadm, hlate]
  · intro hadm
    constructor
    · intro ok
      have h59 : ¬ (T + 59 - T > 60) := by omega
      cases ok <;> simp [recreate_room_cmd, hadm, h59]
    · have h61 : T + 61 - T > 60 := by omega
      simp [recreate_room_cmd, hadm, h61]

/-- Witness for C1 at a concrete configuration: admins `s` and `t`, request
by `s` at time 0; a confirm by `t` at 10 is rejected as wrong requester, a
confirm by `s` at 59 recreates, and a confirm by `s` at 61 is rejected as
expired. -/
theorem C1_recreate_confirm_gate_witness :
    recreate_room_cmd ⟨["s", "t"], []⟩ "t" 10 (some "confirm") true
        (some ⟨"s", 0, false⟩) = (.wrongRequester, some ⟨"s", 0, false⟩) ∧
    recreate_room_cmd ⟨["s", "t"], []⟩ "s" 59 (some "confirm") true
        (some ⟨"s", 0, false⟩) = (.recreated, some ⟨"s", 0, true⟩) ∧
    recreate_room_cmd ⟨["s", "t"], []⟩ "s" 61 (some "confirm") true
        (some ⟨"s", 0, false⟩) = (.expired, some ⟨"s", 0, false⟩) := by
  have h := C1_recreate_confirm_gate ⟨["s", "t"], []⟩ "s" 0 ⟨"s", 0, false⟩
    rfl
  refine ⟨h.1 "t" 10 true (by decide) (by decide), ?_, ?_⟩
  · have h2 := (h.2.2 (by decide)).1 true
    simpa using h2
  · have h3 := (h.2.2 (by decide)).2
    simpa using h3

/-- C2 counterexample: with an already-applied request (`applied = true`,
requester `a`, timestamp 0), a subsequent "recreate confirm" from `a` at
time 30 is **not** rejected with the "already recreated" message — the
confirm branch never reads the `applied` flag, so the recreation runs
again. -/
theorem C2_counterexample :
    recreate_room_cmd ⟨["a"], []⟩ "a" 30 (some "confirm") true
        (some ⟨"a", 0, true⟩) = (.recreated, some ⟨"a", 0, true⟩) ∧
    RecreateOutcome.recreated ≠ RecreateOutcome.alreadyRecreated := by
  decide

/-- C2 as amended: once a request has `applied = true`, a subsequent bare
"recreate" from any admin sender is rejected with the permanent "already
recreated" message and changes no state; but "recreate confirm" is not
gated on the `applied` flag — it checks only existence, requester identity
and the 60-second window, so a confirm from the stored requester within 60
seconds of the stored timestamp runs the recreation again. -/
theorem C2_amended_single_use (cfg : AccessConfig) (sender : String)
    (now : Int) (ok : Bool) (req : RecreateRequest)
    (hadm : ensure_admin cfg sender = true) (happ : req.applied = true) :
    recreate_room_cmd cfg sender now none ok (some req)
      = (.alreadyRecreated, some req) ∧
    (req.requester = sender → now - req.timestamp ≤ 60 →
      recreate_room_cmd cfg sender now (some "confirm") true (some req)
        = (.recreated, some req)) := by
  obtain ⟨r, t, a⟩ := req
  simp only at happ
  subst happ
  constructor
  · simp [recreate_room_cmd, hadm]
  · intro hr hw
    simp only at hr hw
    subst hr
    have hw2 : ¬ (now - t > 60) := by omega
    simp [recreate_room_cmd, hadm, hw2]

/-- Witness for C2's amended statement at a concrete input: admin `a`,
applied request by `a` at time 0; bare recreate answers "already
recreated", and a confirm at 30 recreates again. -/
theorem C2_amended_single_use_witness :
    recreate_room_cmd ⟨["a"], []⟩ "a" 30 none true (some ⟨"a", 0, true⟩)
        = (.alreadyRecreated, some ⟨"a", 0, true⟩) ∧
    recreate_room_cmd ⟨["a"], []⟩ "a" 30 (some "confirm") true
        (some ⟨"a", 0, true⟩) = (.recreated, some ⟨"a", 0, true⟩) := by
  have h := C2_amended_single_use ⟨["a"], []⟩ "a" 30 true ⟨"a", 0, true⟩
    (by decide) rfl
  exact ⟨h.1, h.2 rfl (by decide)⟩

/-- C10: for a room whose stored recreate request is unapplied (stale or
not), a bare "recreate" from any admin sender `B` — also one different from
the original requester — replaces the stored request with a fresh one whose
requester is `B`, whose timestamp is the current time and whose applied
flag is false; keying by room keeps at most one request per room. -/
theorem C10_bare_recreate_resets (cfg : AccessConfig) (B : String)
    (now : Int) (ok : Bool) (req : RecreateRequest)
    (hadm : ensure_admin cfg B = true) (happ : req.applied = false) :
    recreate_room_cmd cfg B now none ok (some req)
      = (.promptConfirm, some ⟨B, now, false⟩) := by
  simp [recreate_room_cmd, hadm, happ]

/-- Witness for C10 at a concrete input: admins `a` and `b`; `b` replaces
the pending request made by `a` at time 5 with its own at time 1000. -/
theorem C10_bare_recreate_resets_witness :
    recreate_room_cmd ⟨["a", "b"], []⟩ "b" 1000 none true
        (some ⟨"a", 5, false⟩)
      = (.promptConfirm, some ⟨"b", 1000, false⟩) :=
  C10_bare_recreate_resets ⟨["a", "b"], []⟩ "b" 1000 true ⟨"a", 5, false⟩
    (by decide) rfl

/-- C3: for every embedded handler gated on coordinator tier (power, rooms,
spaces, communities, invite), a sender in neither tier's membership set is
denied, and a sender in the admin set passes the coordinator gate and the
operation proceeds; the converse fails: a coordinator-only sender is denied
the admin-specific operation (granting admin power). -/
theorem C3_permission_monotonicity (cfg : AccessConfig) :
    (∀ sender, sender ∉ cfg.coordinators → sender ∉ cfg.admins →
      ensure_coordinator cfg sender = false ∧
      (∀ args, powerCmd cfg sender args = .denied) ∧
      (∀ space args, roomsCmd cfg sender space args = .denied) ∧
      (∀ args, communitiesCmd cfg sender args = .denied) ∧
      (∀ args, inviteCmd cfg sender args = .denied)) ∧
    (∀ sender, sender ∈ cfg.admins →
      ensure_coordinator cfg sender = true ∧
      (∀ u r, u ≠ "help" → powerCmd cfg sender [u, r] = .setPower u r 50) ∧
      (∀ space, roomsCmd cfg sender space [] = .listRooms) ∧
      communitiesCmd cfg sender [] = .listCommunities ∧
      (∀ room ids, room ≠ "help" →
        inviteCmd cfg sender (room :: ids) = .proceed room ids)) ∧
    (∀ sender, sender ∈ cfg.coordinators → sender ∉ cfg.admins →
      ensure_admin cfg sender = false ∧
      (∀ u r, u ≠ "help" →
        powerCmd cfg sender [u, r, "admin"] = .adminOnly)) := by
  refine ⟨?_, ?_, ?_⟩
  · intro sender hc ha
    have hco : ensure_coordinator cfg sender = false := by
      simp [ensure_coordinator, get_users_for_access, hc, ha]
    refine ⟨hco, ?_, ?_, ?_, ?_⟩
    · intro args; simp [powerCmd, hco]
    · intro space args; simp [roomsCmd, hco]
    · intro args; simp [communitiesCmd, hco]
    · intro args; simp [inviteCmd, hco]
  · intro sender ha
    have hco : ensure_coordinator cfg sender = true := by
      simp [ensure_coordinator, get_users_for_access, ha]
    refine ⟨hco, ?_, ?_, ?_, ?_⟩
    · intro u r hu
      simp [powerCmd, hco, hu]
    · intro space; simp [roomsCmd, hco]
    · simp [communitiesCmd, hco]
    · intro room ids hroom
      simp [inviteCmd, hco, hroom]
  · intro sender hc ha
    have hco : ensure_coordinator cfg sender = true := by
      simp [ensure_coordinator, get_users_for_access, hc]
    have had : ensure_admin cfg sender = false := by
      simp [ensure_admin, get_users_for_access, ha]
    refine ⟨had, ?_⟩
    intro u r hu
    simp [powerCmd, hco, had, hu]

/-- Witness for C3 at a concrete configuration (coordinator `c`, admin
`a`): outsider `x` is denied the rooms handler, admin `a` passes the
coordinator gate of power, and coordinator `c` is refused admin-level
power. -/
theorem C3_permission_monotonicity_witness :
    roomsCmd ⟨["a"], ["c"]⟩ "x" false ["list"] = .denied ∧
    powerCmd ⟨["a"], ["c"]⟩ "a" ["@u:h", "#r:h"]
      = .setPower "@u:h" "#r:h" 50 ∧
    powerCmd ⟨["a"], ["c"]⟩ "c" ["@u:h", "#r:h", "admin"] = .adminOnly := by
  have h := C3_permission_monotonicity ⟨["a"], ["c"]⟩
  exact ⟨(h.1 "x" (by decide) (by decide)).2.2.1 false ["list"],
    (h.2.1 "a" (by decide)).2.1 "@u:h" "#r:h" (by decide),
    (h.2.2 "c" (by decide) (by decide)).2 "@u:h" "#r:h" (by decide)⟩

/-- C4 counterexample: the router matches by string prefix of the whole
command text, not by exact first token — `"helpme now"` has first token
`"helpme"`, which is no known verb, yet it is routed to the help handler
rather than to the unknown-command response. -/
theorem C4_counterexample :
    specFirstToken "helpme now" = "helpme" ∧
    "helpme" ∉ knownVerbs ∧
    process "helpme now" = Route.help ∧
    Route.help ≠ Route.unknown := by decide

/-- C4 as amended: routing compares the raw command text case-sensitively
by *prefix* against the known verbs in a fixed order (breakout,
communities, help, invite, power, rooms, spaces, users); an input whose
first token is a known verb is routed to that verb, but so is any input
merely starting with a verb; every input that starts with none of the
known verbs produces exactly the unknown-command response and no side
effects. -/
theorem C4_unknown_fallback (s : String)
    (h : ∀ v ∈ knownVerbs, strStartsWith s v = false) :
    process s = Route.unknown := by
  have h1 := h "breakout" (by decide)
  have h2 := h "communities" (by decide)
  have h3 := h "help" (by decide)
  have h4 := h "invite" (by decide)
  have h5 := h "power" (by decide)
  have h6 := h "rooms" (by decide)
  have h7 := h "spaces" (by decide)
  have h8 := h "users" (by decide)
  simp [process, h1, h2, h3, h4, h5, h6, h7, h8]

/-- Witness for the amended C4 at the concrete input `"xyz"`. -/
theorem C4_unknown_fallback_witness : process "xyz" = Route.unknown :=
  C4_unknown_fallback "xyz" (by decide)

/-- C5 counterexample: the bare-verb/`help` short-circuit is not uniform.
With a sender holding both tiers, `communities help` is answered with
"Unknown subcommand!" instead of help text, and the bare verbs `rooms` and
`users` perform their default list operation instead of short-circuiting
to help. -/
theorem C5_counterexample :
    communitiesCmd ⟨["a"], ["a"]⟩ "a" ["help"] = .unknownSubcommand ∧
    CommunitiesOutcome.unknownSubcommand ≠ .malformedCreate ∧
    roomsCmd ⟨["a"], ["a"]⟩ "a" false [] = .listRooms ∧
    RoomsOutcome.listRooms ≠ .helpRooms ∧
    usersCmd ⟨["a"], ["a"]⟩ true true "a" [] = .listUsers ∧
    UsersOutcome.listUsers ≠ .helpUsers := by decide

/-- C5 as amended: the bare-or-`help` short-circuit holds for breakout,
power and invite; for rooms, spaces and users the literal first argument
`help` short-circuits, but the bare verb performs the default list
operation; bare `communities` lists communities and `communities help` is
answered with "Unknown subcommand!"; subcommands taking a first argument
(`rooms create`, `users create`) short-circuit when that argument is
`help`. -/
theorem C5_help_short_circuit (cfg : AccessConfig) (sender : String)
    (hco : ensure_coordinator cfg sender = true)
    (had : ensure_admin cfg sender = true) :
    (∀ sid, breakoutCmd [] sid = .help) ∧
    (∀ rest sid, breakoutCmd ("help" :: rest) sid = .help) ∧
    powerCmd cfg sender [] = .help ∧
    (∀ rest, powerCmd cfg sender ("help" :: rest) = .help) ∧
    inviteCmd cfg sender [] = .help ∧
    (∀ rest, inviteCmd cfg sender ("help" :: rest) = .help) ∧
    (∀ space rest, roomsCmd cfg sender space ("help" :: rest) = .helpRooms) ∧
    (∀ space, roomsCmd cfg sender space [] = .listRooms) ∧
    communitiesCmd cfg sender [] = .listCommunities ∧
    (∀ rest, communitiesCmd cfg sender ("help" :: rest)
      = .unknownSubcommand) ∧
    (∀ rest, usersCmd cfg true true sender ("help" :: rest) = .helpUsers) ∧
    usersCmd cfg true true sender [] = .listUsers ∧
    (∀ space rest, roomsCmd cfg sender space ("create" :: "help" :: rest)
      = .malformedCreate) ∧
    (∀ rest, usersCmd cfg true true sender ("create" :: "help" :: rest)
      = .helpUsersCreate) := by
  refine ⟨?_, ?_, ?_, ?_, ?_, ?_, ?_, ?_, ?_, ?_, ?_, ?_, ?_, ?_⟩
  · intro sid; simp [breakoutCmd]
  · intro rest sid; simp [breakoutCmd]
  · simp [powerCmd, hco]
  · intro rest; simp [powerCmd, hco]
  · simp [inviteCmd, hco]
  · intro rest; simp [inviteCmd, hco]
  · intro space rest; simp [roomsCmd, hco]
  · intro space; simp [roomsCmd, hco]
  · simp [communitiesCmd, hco]
  · intro rest; simp [communitiesCmd, hco]
  · intro rest; simp [usersCmd]
  · simp [usersCmd, had]
  · intro space rest; simp [roomsCmd, hco]
  · intro rest; simp [usersCmd, had]

/-- Witness for the amended C5 at a concrete configuration: sender `a`
holds both tiers; `power help` short-circuits while bare `rooms` lists. -/
theorem C5_help_short_circuit_witness :
    powerCmd ⟨["a"], ["a"]⟩ "a" ["help"] = .help ∧
    roomsCmd ⟨["a"], ["a"]⟩ "a" false [] = .listRooms := by
  have h := C5_help_short_circuit ⟨["a"], ["a"]⟩ "a" (by decide) (by decide)
  exact ⟨h.2.2.2.1 [], h.2.2.2.2.2.2.2.1 false⟩

/-- C6: reconciliation of a community is idempotent by construction — when
the alias is absent and the backend accepts creation, the first call
returns `created`, and a second identical call against the resulting state
returns `alreadyExists` without any further mutation; and every call
produces exactly one of the three outcomes. -/
theorem C6_ensure_community_idempotent (b : GroupBackend) (a : String)
    (habs : a ∉ b.groups) (hok : b.createStatus ≤ 201) :
    (ensure_community_exists a b).1 = .created ∧
    (ensure_community_exists a (ensure_community_exists a b).2).1
      = .alreadyExists ∧
    (ensure_community_exists a (ensure_community_exists a b).2).2
      = (ensure_community_exists a b).2 ∧
    (∀ b2 a2, (ensure_community_exists a2 b2).1 = .created ∨
      (ensure_community_exists a2 b2).1 = .alreadyExists ∨
      ∃ d, (ensure_community_exists a2 b2).1 = .error d) := by
  have hstat : ¬ (b.createStatus > 201) := by omega
  refine ⟨?_, ?_, ?_, ?_⟩
  · simp [ensure_community_exists, habs, hstat]
  · simp [ensure_community_exists, habs, hstat]
  · simp [ensure_community_exists, habs, hstat]
  · intro b2 a2
    by_cases h1 : a2 ∈ b2.groups
    · simp [ensure_community_exists, h1]
    · by_cases h2 : b2.createStatus > 201
      · simp [ensure_community_exists, h1, h2]
      · simp [ensure_community_exists, h1, h2]

/-- Witness for C6 at a concrete backend: empty directory accepting
creation with status 200; creating alias `epic` then re-running converges
to `alreadyExists` with the state untouched. -/
theorem C6_ensure_community_idempotent_witness :
    (ensure_community_exists "epic" ⟨[], 200⟩).1 = .created ∧
    (ensure_community_exists "epic"
      (ensure_community_exists "epic" ⟨[], 200⟩).2).1 = .alreadyExists := by
  have h := C6_ensure_community_idempotent ⟨[], 200⟩ "epic" (by decide)
    (by decide)
  exact ⟨h.1, h.2.1⟩

/-- C7: creating a user for `a@x.com` derives the candidate `a`; if an
account named `a` already exists and `a1` is free, the loop selects `a1`;
in general the loop never returns a name that is taken (so `a` is never
reused) and it succeeds whenever some candidate in the suffix sequence is
free within the unrolling bound. -/
theorem C7_username_disambiguation (taken : String → Bool) :
    username_candidate "a@x.com" = "a" ∧
    (taken "a" = true → taken "a1" = false →
      pick_username taken "a" 2 0 = some "a1") ∧
    (∀ base fuel c u, pick_username taken base fuel c = some u →
      taken u = false) ∧
    (∀ base fuel c,
      (∃ j, j < fuel ∧ taken (candidateAt base (c + j)) = false) →
      (pick_username taken base fuel c).isSome) := by
  refine ⟨by decide, ?_, ?_, ?_⟩
  · intro h1 h2
    have e1 : candidateAt "a" 0 = "a" := by decide
    have e2 : candidateAt "a" 1 = "a1" := by decide
    simp [pick_username, e1, e2, h1, h2]
  · intro base fuel
    induction fuel with
    | zero => intro c u h; simp [pick_username] at h
    | succ n ih =>
      intro c u h
      simp only [pick_username] at h
      by_cases ht : taken (candidateAt base c) = true
      · rw [if_pos ht] at h
        exact ih (c + 1) u h
      · rw [if_neg ht] at h
        cases h
        exact Bool.not_eq_true _ ▸ (Bool.eq_false_iff.mpr ht)
  · intro base fuel
    induction fuel with
    | zero =>
      rintro c ⟨j, hj, _⟩
      exact absurd hj (Nat.not_lt_zero j)
    | succ n ih =>
      rintro c ⟨j, hj, hfree⟩
      simp only [pick_username]
      by_cases ht : taken (candidateAt base c) = true
      · rw [if_pos ht]
        apply ih (c + 1)
        cases j with
        | zero =>
          rw [Nat.add_zero] at hfree
          rw [hfree] at ht
          exact absurd ht (by simp)
        | succ j2 =>
          refine ⟨j2, by omega, ?_⟩
          rw [show c + 1 + j2 = c + (j2 + 1) from by omega]
          exact hfree
      · rw [if_neg ht]
        simp

/-- Witness for C7: with exactly the account `a` taken, the loop run for
the candidate derived from `a@x.com` returns `a1`, which is free. -/
theorem C7_username_disambiguation_witness :
    username_candidate "a@x.com" = "a" ∧
    pick_username (fun s => s == "a") "a" 2 0 = some "a1" ∧
    (fun s => s == "a") "a1" = false := by
  have h := C7_username_disambiguation (fun s => s == "a")
  exact ⟨h.1, h.2.1 (by decide) (by decide),
    h.2.2.1 "a" 2 0 "a1" (h.2.1 (by decide) (by decide))⟩

/-- C8: the claim is right and the source has a slip — the create branch of
`Command._rooms` checks `params[3]` against yes/no twice and never checks
`params[4]`, so an input whose fifth argument is neither `yes` nor `no`
(here `banana`) is accepted and the room is created with the encrypted flag
silently read as `no`, instead of being rejected with help text; the
fourth-argument check and the argument-count check do reject. -/
theorem C8_flag_validation_gap :
    roomsCmd ⟨[], ["c"]⟩ "c" false
        ["create", "Name", "alias", "parent", "yes", "banana"]
      = .ensureRoom "Name" "alias" "parent" true false false ∧
    RoomsOutcome.ensureRoom "Name" "alias" "parent" true false false
      ≠ .malformedCreate ∧
    roomsCmd ⟨[], ["c"]⟩ "c" false
        ["create", "Name", "alias", "parent", "banana", "yes"]
      = .malformedCreate ∧
    roomsCmd ⟨[], ["c"]⟩ "c" false ["create", "Name", "alias"]
      = .malformedCreate := by decide

/-- C9: in the breakout flow, when no event id comes back for the
announcement the mapping is not stored, and the additional text sent to
the issuer both confirms that the room was created and warns that invites
via reactions will not work — the failure is never silent. -/
theorem C9_breakout_store_failure_surfaced (args : List String)
    (h1 : ¬ args.isEmpty) (h2 : args.headD "" ≠ "help") :
    breakoutCmd args none
      = .created [breakout_announce_text (String.intercalate " " args),
          breakout_store_error_text] false ∧
    (∃ x y, breakout_store_error_text = x ++ "The room was created" ++ y) ∧
    (∃ x y, breakout_store_error_text
      = x ++ "invites via reactions will not work" ++ y) := by
  refine ⟨?_,
    ⟨"*Error: failed to store breakout room data. ",
      ", but invites via reactions will not work.*", by decide⟩,
    ⟨"*Error: failed to store breakout room data. The room was created, but ",
      ".*", by decide⟩⟩
  have h3 : args.head?.getD "" ≠ "help" := by
    cases args with
    | nil => simp at h1
    | cons a t => simpa using h2
  simp [breakoutCmd, h1, h3]

/-- Witness for C9 at the concrete command `breakout Topic`. -/
theorem C9_breakout_store_failure_surfaced_witness :
    breakoutCmd ["Topic"] none
      = .created
          [breakout_announce_text (String.intercalate " " ["Topic"]),
            breakout_store_error_text] false :=
  (C9_breakout_store_failure_surfaced ["Topic"] (by decide) (by decide)).1

end Bubo
